import Mathlib

/-!
Shallow embedding of the `burger_shop` ink! contract (src/lib.rs) and proofs
about its claims.

Modelling conventions:
* `Balance` (u128 in the source) is `Nat`; arithmetic that the build traps on
  overflow is modelled by `checked_mul` / `checked_add` returning `none` at
  `2^128`.
* `AccountId` is opaque and modelled as `Nat`.
* `usize` is 32-bit on the contract's wasm32 target, so `self.orders.len() as
  u32` is a lossless cast and is modelled as `List.length` directly.
* A Rust panic (`assert!`, `expect`) aborts the message and reverts all state;
  it is modelled by the `trap` result constructor carrying a `Panic` tag that
  names the source assertion.
* The host environment of one message call (caller, contract account id,
  transferred value, and the outcome of the single `env().transfer` call)
  is a record `Env` passed in explicitly.
-/

namespace BurgerShop

abbrev AccountId := Nat

abbrev Balance := Nat

/-- Upper bound of `u128`; `Balance` arithmetic fails at or above this. -/
def U128_LIMIT : Nat := 2 ^ 128

/-- Modelled from the spec: the semantics of plain `*` on `Balance` is fixed by
the crate's build profile (Cargo.toml, which is not under src/); the spec
requires the operation to "fail, not wrap, on overflow", matching the contract
toolchain's mandatory overflow checks, so multiplication traps (`none`) when
the product leaves the u128 range. -/
def checked_mul (a b : Nat) : Option Nat :=
  if a * b < U128_LIMIT then some (a * b) else none

/-- Modelled from the spec: same build-profile point as `checked_mul`, for the
`total += item.price()` addition in `Order::total_price`. -/
def checked_add (a b : Nat) : Option Nat :=
  if a + b < U128_LIMIT then some (a + b) else none

/-- Burger Type sold in the shop (src `BurgerMenu`). -/
inductive BurgerMenu where
  | CheeseBurger
  | ChickenBurger
  | VeggieBurger
deriving DecidableEq, Repr

/-- Designate price for burger variants (src `BurgerMenu::price`). -/
def BurgerMenu.price : BurgerMenu → Balance
  | .CheeseBurger => 12
  | .VeggieBurger => 10
  | .ChickenBurger => 15

/-- Food sold in the shop (src `FoodItem`); `amount` is `u32` in the source. -/
structure FoodItem where
  burger_menu : BurgerMenu
  amount : Nat
deriving DecidableEq, Repr

/-- Determine price for each food item (src `FoodItem::price`):
`unit_price * amount as u128`, trapping on overflow. -/
def FoodItem.price (self : FoodItem) : Option Balance :=
  match self.burger_menu with
  | .CheeseBurger => checked_mul (BurgerMenu.price .CheeseBurger) self.amount
  | .ChickenBurger => checked_mul (BurgerMenu.price .ChickenBurger) self.amount
  | .VeggieBurger => checked_mul (BurgerMenu.price .VeggieBurger) self.amount

/-- Order struct (src `Order`). -/
structure Order where
  list_of_items : List FoodItem
  customer : AccountId
  total_price : Balance
  paid : Bool
  order_id : Nat
deriving DecidableEq, Repr

/-- The `for item in list_of_items { total += item.price() }` loop of
`Order::total_price`, with the running total as an accumulator. -/
def total_price_loop (total : Balance) : List FoodItem → Option Balance
  | [] => some total
  | item :: rest =>
    match item.price with
    | none => none
    | some p =>
      match checked_add total p with
      | none => none
      | some t => total_price_loop t rest

/-- Get total price of the food items (src associated function
`Order::total_price`; named apart from the `Order.total_price` field, which
Lean would otherwise clash with). -/
def order_total_price (list_of_items : List FoodItem) : Option Balance :=
  total_price_loop 0 list_of_items

/-- Initialize a new order (src `Order::new`); `none` when pricing traps. -/
def Order.new (list_of_items : List FoodItem) (customer : AccountId)
    (id : Nat) : Option Order :=
  (order_total_price list_of_items).map fun total_price =>
    { list_of_items := list_of_items
      customer := customer
      total_price := total_price
      paid := false
      order_id := id }

/-- Error types of the contract (src `BurgerShopError`). -/
inductive BurgerShopError where
  | PaymentError
  | OrderNotCompleted
deriving DecidableEq, Repr

/-- The panic sites of the contract, one tag per `assert!` / `expect`. -/
inductive Panic where
  /-- assert "You are not the customer!" (caller equals the contract). -/
  | notCustomer
  /-- assert "Can't take an empty order!". -/
  | emptyOrder
  /-- overflow panic inside `Order::total_price` / `FoodItem::price`. -/
  | overflowPrice
  /-- assert "Can't pay for an order that is paid for already". -/
  | alreadyPaid
  /-- expect "Overflow!!!" on `total_price.checked_mul(multiply)`. -/
  | overflowScale
  /-- assert "Please pay complete amount which is {total_price}". -/
  | paymentMismatch (expected : Balance)
  /-- expect "Order not found" in `get_single_order`. -/
  | orderNotFound
deriving DecidableEq, Repr

/-- The `ink::storage::Mapping<u32, Order>` lookup index, as an association
list: `insert` prepends (later entries shadow earlier ones), `get` returns the
most recent binding. -/
abbrev Mapping := List (Nat × Order)

/-- `Mapping::insert(id, &order)`. -/
def Mapping.insert (m : Mapping) (k : Nat) (v : Order) : Mapping :=
  (k, v) :: m

/-- `Mapping::get(id) -> Option<Order>`. -/
def Mapping.get (m : Mapping) (k : Nat) : Option Order :=
  match List.find? (fun p => p.1 == k) m with
  | some p => some p.2
  | none => none

/-- Contract storage (src `BurgerShop`). -/
structure Shop where
  orders : List (Nat × Order)
  orders_mapping : Mapping
deriving DecidableEq, Repr

/-- Constructor (src `BurgerShop::new`): empty vector, empty mapping. -/
def Shop.new : Shop :=
  { orders := [], orders_mapping := [] }

/-- Host-environment data of one `take_order_and_payment` call. -/
structure Env where
  /-- `self.env().caller()`. -/
  caller : AccountId
  /-- `self.env().account_id()`. -/
  contract_account : AccountId
  /-- `self.env().transferred_value()`. -/
  transferred_value : Balance
  /-- Outcome of the single `self.env().transfer(..)` call. -/
  transfer_ok : Bool
deriving DecidableEq, Repr

/-- Result of one `take_order_and_payment` message call. `ok` and `err` carry
the post-call storage and the single external transfer call that was made, as
a `(destination, amount)` pair; `trap` is a panic, which reverts the call
before any transfer or storage write. -/
inductive TakeOrderResult where
  | ok (order : Order) (shop : Shop) (call : AccountId × Balance)
  | err (e : BurgerShopError) (shop : Shop) (call : AccountId × Balance)
  | trap (p : Panic)
deriving DecidableEq, Repr

/-- Whether the result is an explicit `Err` result value (as opposed to a
successful return or a panic/trap). -/
def TakeOrderResult.isErrResult : TakeOrderResult → Bool
  | .err _ _ _ => true
  | _ => false

/-- src `take_order_and_payment`, line for line:
caller check, non-empty check, id from `orders.len()`, pricing, the
(always-true) `paid == false` assert, scaling by `1_000_000_000_000` with
overflow `expect`, exact-amount assert, then the external transfer; on `Ok`
the order is marked paid and pushed to both views, on `Err` the function
returns `PaymentError` without touching storage. -/
def take_order_and_payment (env : Env) (shop : Shop)
    (list_of_items : List FoodItem) : TakeOrderResult :=
  let caller := env.caller
  if caller = env.contract_account then
    .trap .notCustomer
  else if list_of_items.length = 0 then
    .trap .emptyOrder
  else
    let id := shop.orders.length
    match order_total_price list_of_items with
    | none => .trap .overflowPrice
    | some total_price =>
      match Order.new list_of_items caller id with
      | none => .trap .overflowPrice
      | some order0 =>
        let order := { order0 with total_price := total_price }
        if order.paid = true then
          .trap .alreadyPaid
        else
          let multiply : Balance := 1000000000000
          match checked_mul order.total_price multiply with
          | none => .trap .overflowScale
          | some expected =>
            if env.transferred_value ≠ expected then
              .trap (.paymentMismatch order.total_price)
            else if env.transfer_ok then
              let id2 := shop.orders.length
              let order1 := { order with paid := true }
              .ok order1
                { orders := shop.orders ++ [(id2, order1)]
                  orders_mapping :=
                    Mapping.insert shop.orders_mapping id2 order1 }
                (env.contract_account, order.total_price)
            else
              .err .PaymentError shop (env.contract_account, order.total_price)

/-- src `get_single_order`: mapping lookup, `expect("Order not found")`. -/
def get_single_order (shop : Shop) (id : Nat) : Except Panic Order :=
  match Mapping.get shop.orders_mapping id with
  | some order => .ok order
  | none => .error .orderNotFound

/-- src `get_orders`: `Some` of the whole vector when non-empty, else `None`. -/
def get_orders (shop : Shop) : Option (List (Nat × Order)) :=
  if shop.orders.length > 0 then some shop.orders else none

/-- One mutating operation applied to storage: a `take_order_and_payment` call
with its host environment. A trap reverts (storage unchanged); `err` returns
the storage the result carries (identical to the input); `ok` commits. The
second component records the committed order, if any. -/
def applyOp (shop : Shop) (op : Env × List FoodItem) : Shop × Option Order :=
  match take_order_and_payment op.1 shop op.2 with
  | .ok o s _ => (s, some o)
  | .err _ s _ => (s, none)
  | .trap _ => (shop, none)

/-- Run a sequence of calls from a given storage state, collecting the orders
committed by successful calls, in order. -/
def runFrom (shop : Shop) : List (Env × List FoodItem) → Shop × List Order
  | [] => (shop, [])
  | op :: ops =>
    match applyOp shop op with
    | (s, some o) => ((runFrom s ops).1, o :: (runFrom s ops).2)
    | (s, none) => runFrom s ops

/-- Storage reached from the freshly constructed shop by a call sequence. -/
def run (ops : List (Env × List FoodItem)) : Shop :=
  (runFrom Shop.new ops).1

/-- The orders committed (returned by successful calls) along a call
sequence from the freshly constructed shop, in creation order. -/
def runLog (ops : List (Env × List FoodItem)) : List Order :=
  (runFrom Shop.new ops).2

/-- Specification-side order total: the sum over the items of
`unit_price(kind) * quantity`, as plain natural-number arithmetic. -/
def spec_order_total (items : List FoodItem) : Nat :=
  (items.map fun i => i.burger_menu.price * i.amount).sum


-- pricing lemmas

theorem FoodItem.price_eq (fi : FoodItem) :
    fi.price = checked_mul fi.burger_menu.price fi.amount := by
  cases fi with
  | mk menu amount => cases menu <;> rfl

theorem U128_LIMIT_pos : 0 < U128_LIMIT := by
  norm_num [U128_LIMIT]

theorem spec_order_total_cons (fi : FoodItem) (rest : List FoodItem) :
    spec_order_total (fi :: rest) =
      fi.burger_menu.price * fi.amount + spec_order_total rest := by
  simp [spec_order_total]

theorem total_price_loop_eq (l : List FoodItem) :
    ∀ total : Balance, total < U128_LIMIT →
      total_price_loop total l =
        if total + spec_order_total l < U128_LIMIT then
          some (total + spec_order_total l)
        else none := by
  induction l with
  | nil =>
    intro t ht
    simp [total_price_loop, spec_order_total, ht]
  | cons fi rest ih =>
    intro t ht
    by_cases hp : fi.burger_menu.price * fi.amount < U128_LIMIT
    · by_cases ha : t + fi.burger_menu.price * fi.amount < U128_LIMIT
      · rw [total_price_loop]
        simp only [FoodItem.price_eq, checked_mul, checked_add, if_pos hp,
          if_pos ha]
        rw [ih _ ha, spec_order_total_cons, ← Nat.add_assoc]
      · rw [total_price_loop]
        simp only [FoodItem.price_eq, checked_mul, checked_add, if_pos hp,
          if_neg ha]
        rw [spec_order_total_cons]
        have hn : ¬ (t + (fi.burger_menu.price * fi.amount
            + spec_order_total rest) < U128_LIMIT) := by
          intro h
          exact ha (Nat.lt_of_le_of_lt
            (Nat.add_le_add_left (Nat.le_add_right _ _) t) h)
        rw [if_neg hn]
    · rw [total_price_loop]
      simp only [FoodItem.price_eq, checked_mul, if_neg hp]
      rw [spec_order_total_cons]
      have hn : ¬ (t + (fi.burger_menu.price * fi.amount
          + spec_order_total rest) < U128_LIMIT) := by
        intro h
        exact hp (Nat.lt_of_le_of_lt
          (Nat.le_trans (Nat.le_add_right _ _) (Nat.le_add_left _ _)) h)
      rw [if_neg hn]

theorem order_total_price_eq (items : List FoodItem) :
    order_total_price items =
      if spec_order_total items < U128_LIMIT then
        some (spec_order_total items)
      else none := by
  have h := total_price_loop_eq items 0 U128_LIMIT_pos
  simpa [order_total_price] using h

-- take_order_and_payment lemmas

/-- The order record committed by a successful call. -/
def committed_order (env : Env) (items : List FoodItem) (tp : Balance)
    (n : Nat) : Order :=
  { list_of_items := items
    customer := env.caller
    total_price := tp
    paid := true
    order_id := n }

/-- The storage produced by a successful call. -/
def committed_shop (shop : Shop) (o : Order) : Shop :=
  { orders := shop.orders ++ [(shop.orders.length, o)]
    orders_mapping := Mapping.insert shop.orders_mapping shop.orders.length o }

theorem take_order_success_eq (env : Env) (shop : Shop)
    (items : List FoodItem) (tp : Balance)
    (hc : env.caller ≠ env.contract_account)
    (hne : items ≠ [])
    (htp : order_total_price items = some tp)
    (hsc : tp * 1000000000000 < U128_LIMIT)
    (hval : env.transferred_value = tp * 1000000000000)
    (hok : env.transfer_ok = true) :
    take_order_and_payment env shop items =
      .ok (committed_order env items tp shop.orders.length)
        (committed_shop shop (committed_order env items tp shop.orders.length))
        (env.contract_account, tp) := by
  have hlen : ¬ (items.length = 0) := by simpa using hne
  simp [take_order_and_payment, Order.new, checked_mul, committed_order,
    committed_shop, Mapping.insert, hc, hlen, htp, hsc, hval, hok]

theorem take_order_failure_eq (env : Env) (shop : Shop)
    (items : List FoodItem) (tp : Balance)
    (hc : env.caller ≠ env.contract_account)
    (hne : items ≠ [])
    (htp : order_total_price items = some tp)
    (hsc : tp * 1000000000000 < U128_LIMIT)
    (hval : env.transferred_value = tp * 1000000000000)
    (hfail : env.transfer_ok = false) :
    take_order_and_payment env shop items =
      .err .PaymentError shop (env.contract_account, tp) := by
  have hlen : ¬ (items.length = 0) := by simpa using hne
  simp [take_order_and_payment, Order.new, checked_mul, hc, hlen, htp, hsc,
    hval, hfail]

theorem take_order_mismatch_eq (env : Env) (shop : Shop)
    (items : List FoodItem) (tp : Balance)
    (hc : env.caller ≠ env.contract_account)
    (hne : items ≠ [])
    (htp : order_total_price items = some tp)
    (hsc : tp * 1000000000000 < U128_LIMIT)
    (hval : env.transferred_value ≠ tp * 1000000000000) :
    take_order_and_payment env shop items = .trap (.paymentMismatch tp) := by
  have hlen : ¬ (items.length = 0) := by simpa using hne
  simp [take_order_and_payment, Order.new, checked_mul, hc, hlen, htp, hsc,
    hval]

theorem take_order_ok_shape {env : Env} {shop : Shop} {items : List FoodItem}
    {o : Order} {s' : Shop} {c : AccountId × Balance}
    (h : take_order_and_payment env shop items = .ok o s' c) :
    o.paid = true ∧
    o.order_id = shop.orders.length ∧
    s' = committed_shop shop o ∧
    c = (env.contract_account, o.total_price) ∧
    env.transferred_value = o.total_price * 1000000000000 := by
  simp only [take_order_and_payment] at h
  repeat' split at h
  all_goals try cases h
  rename_i hc hlen osc tp htp osc2 order0 hnew hpaid osc3 expv hexp hnv hok
  have hrec : order0 = ⟨items, env.caller, tp, false, shop.orders.length⟩ := by
    rw [Order.new, htp] at hnew
    simpa using hnew.symm
  subst hrec
  have hexp' : expv = tp * 1000000000000 := by
    rw [checked_mul] at hexp
    split at hexp
    · exact (Option.some.inj hexp).symm
    · cases hexp
  subst hexp'
  have hval : env.transferred_value = tp * 1000000000000 := not_not.mp hnv
  exact ⟨rfl, rfl, by simp [committed_shop, Mapping.insert], rfl, hval⟩

theorem take_order_err_shape {env : Env} {shop : Shop} {items : List FoodItem}
    {e : BurgerShopError} {s' : Shop} {c : AccountId × Balance}
    (h : take_order_and_payment env shop items = .err e s' c) :
    e = .PaymentError ∧ s' = shop := by
  simp only [take_order_and_payment] at h
  repeat' split at h
  all_goals try cases h
  exact ⟨rfl, rfl⟩

-- ledger invariant machinery

/-- Invariant of every reachable storage state: the append log carries ids
0, 1, 2, ... in order, and the lookup index holds exactly the log's entries
(latest first). -/
def goodState (s : Shop) : Prop :=
  s.orders.map Prod.fst = List.range s.orders.length ∧
  s.orders_mapping = s.orders.reverse

theorem goodState_new : goodState Shop.new := by
  constructor <;> simp [Shop.new]

theorem goodState_committed {s : Shop} (o : Order) (h : goodState s) :
    goodState (committed_shop s o) := by
  obtain ⟨h1, h2⟩ := h
  constructor
  · simp [committed_shop, h1, List.range_succ]
  · simp [committed_shop, Mapping.insert, h2]

theorem applyOp_cases (s : Shop) (op : Env × List FoodItem) :
    ((applyOp s op).1 = s ∧ (applyOp s op).2 = none) ∨
    (∃ o : Order, (applyOp s op).2 = some o ∧
      (applyOp s op).1 = committed_shop s o ∧
      o.order_id = s.orders.length ∧ o.paid = true) := by
  rcases hr : take_order_and_payment op.1 s op.2 with ⟨o, s1, c⟩ | ⟨e, s1, c⟩ | p
  · right
    obtain ⟨hp, hid, hs, -, -⟩ := take_order_ok_shape hr
    exact ⟨o, by simp [applyOp, hr], by simp [applyOp, hr, hs], hid, hp⟩
  · left
    obtain ⟨-, hs⟩ := take_order_err_shape hr
    constructor <;> simp [applyOp, hr, hs]
  · left
    constructor <;> simp [applyOp, hr]

theorem runFrom_good (ops : List (Env × List FoodItem)) :
    ∀ s : Shop, goodState s → goodState (runFrom s ops).1 := by
  induction ops with
  | nil => intro s h; exact h
  | cons op ops ih =>
    intro s h
    rw [runFrom]
    rcases hap : applyOp s op with ⟨s1, r⟩
    rcases applyOp_cases s op with ⟨h1, h2⟩ | ⟨o, h2, h1, hid, hp⟩ <;>
      rw [hap] at h1 h2 <;> simp only [] at h1 h2 <;> subst h2 <;> subst h1
    · exact ih _ h
    · exact ih _ (goodState_committed o h)

theorem run_good (ops : List (Env × List FoodItem)) : goodState (run ops) :=
  runFrom_good ops Shop.new goodState_new

theorem runFrom_map_snd (ops : List (Env × List FoodItem)) :
    ∀ s : Shop, ((runFrom s ops).1).orders.map Prod.snd
      = s.orders.map Prod.snd ++ (runFrom s ops).2 := by
  induction ops with
  | nil => intro s; simp [runFrom]
  | cons op ops ih =>
    intro s
    rw [runFrom]
    rcases hap : applyOp s op with ⟨s1, r⟩
    rcases applyOp_cases s op with ⟨h1, h2⟩ | ⟨o, h2, h1, hid, hp⟩ <;>
      rw [hap] at h1 h2 <;> simp only [] at h1 h2 <;> subst h2 <;> subst h1
    · exact ih _
    · simp only []
      rw [ih (committed_shop s o)]
      simp [committed_shop]

theorem runFrom_extends (ops : List (Env × List FoodItem)) :
    ∀ s : Shop, ∃ t, (runFrom s ops).1.orders = s.orders ++ t := by
  induction ops with
  | nil => intro s; exact ⟨[], by simp [runFrom]⟩
  | cons op ops ih =>
    intro s
    rw [runFrom]
    rcases hap : applyOp s op with ⟨s1, r⟩
    rcases applyOp_cases s op with ⟨h1, h2⟩ | ⟨o, h2, h1, hid, hp⟩ <;>
      rw [hap] at h1 h2 <;> simp only [] at h1 h2 <;> subst h2 <;> subst h1
    · exact ih _
    · obtain ⟨t, ht⟩ := ih (committed_shop s o)
      refine ⟨(s.orders.length, o) :: t, ?_⟩
      simp only []
      rw [ht]
      simp [committed_shop]

theorem runFrom_state_append (ops1 : List (Env × List FoodItem)) :
    ∀ (ops2 : List (Env × List FoodItem)) (s : Shop),
      (runFrom s (ops1 ++ ops2)).1 = (runFrom (runFrom s ops1).1 ops2).1 := by
  induction ops1 with
  | nil => intro ops2 s; simp [runFrom]
  | cons op ops1 ih =>
    intro ops2 s
    rw [List.cons_append, runFrom, runFrom]
    rcases hap : applyOp s op with ⟨s1, r⟩
    cases r <;> simp only [] <;> exact ih ops2 s1

-- mapping lookup lemmas

theorem mapping_get_cons {k' : Nat} {v' : Order} {rest : Mapping} {k : Nat} :
    Mapping.get ((k', v') :: rest) k =
      if k' = k then some v' else Mapping.get rest k := by
  by_cases h : k' = k
  · rw [Mapping.get, List.find?_cons_of_pos _ (by simp [h])]
    simp [h]
  · rw [Mapping.get, List.find?_cons_of_neg _ (by simp [h])]
    rw [if_neg h, Mapping.get]

theorem mapping_get_mem {m : Mapping} (hnd : (m.map Prod.fst).Nodup)
    {k : Nat} {v : Order} :
    Mapping.get m k = some v ↔ (k, v) ∈ m := by
  induction m with
  | nil => simp [Mapping.get, List.find?]
  | cons p rest ih =>
    rcases p with ⟨k', v'⟩
    simp only [List.map_cons, List.nodup_cons] at hnd
    rw [mapping_get_cons]
    by_cases h : k' = k
    · subst h
      rw [if_pos rfl]
      constructor
      · intro h'
        rw [Option.some.injEq] at h'
        subst h'
        exact List.mem_cons_self _ _
      · intro hm
        rcases List.mem_cons.mp hm with heq | hm'
        · rw [Prod.mk.injEq] at heq
          rw [heq.2]
        · exact absurd (List.mem_map_of_mem Prod.fst hm') hnd.1
    · rw [if_neg h, ih hnd.2]
      constructor
      · intro hm
        exact List.mem_cons_of_mem _ hm
      · intro hm
        rcases List.mem_cons.mp hm with heq | hm'
        · exfalso
          apply h
          rw [Prod.mk.injEq] at heq
          exact heq.1.symm
        · exact hm'

theorem mapping_get_none {m : Mapping} {k : Nat}
    (hk : k ∉ m.map Prod.fst) : Mapping.get m k = none := by
  induction m with
  | nil => rfl
  | cons p rest ih =>
    rcases p with ⟨k', v'⟩
    simp only [List.map_cons, List.mem_cons] at hk
    push_neg at hk
    rw [mapping_get_cons, if_neg (fun he => hk.1 he.symm)]
    exact ih hk.2

theorem goodState_mem_iff_get {s : Shop} (h : goodState s) (id : Nat)
    (o : Order) :
    ((id, o) ∈ s.orders ↔ Mapping.get s.orders_mapping id = some o) := by
  have hnd : (s.orders.reverse.map Prod.fst).Nodup := by
    rw [List.map_reverse, List.nodup_reverse, h.1]
    exact List.nodup_range _
  rw [h.2, mapping_get_mem hnd, List.mem_reverse]

-- concrete example inputs used by witnesses

/-- The spec's running example: 2 CheeseBurgers and 1 VeggieBurger. -/
def ex_items : List FoodItem := [⟨.CheeseBurger, 2⟩, ⟨.VeggieBurger, 1⟩]

/-- Environment of a successful example call: caller 1, contract account 0,
exactly 34 × 10^12 attached, transfer succeeds. -/
def ex_env : Env := ⟨1, 0, 34000000000000, true⟩

/-- The order committed by the example call. -/
def ex_order : Order := ⟨ex_items, 1, 34, true, 0⟩

/-- A one-call history performing the successful example call. -/
def ex_ops : List (Env × List FoodItem) := [(ex_env, ex_items)]

/-- Storage after the example call. -/
def ex_shop1 : Shop := ⟨[(0, ex_order)], [(0, ex_order)]⟩

-- claim theorems

/-- C1: for every ledger state and non-empty item list, if the attached
payment equals the computed total scaled by 10^12 and the external transfer
succeeds, `take_order_and_payment` appends exactly one new entry to both
ledger views, the committed order has `paid = true`, and its id equals the
prior ledger size. -/
theorem claim_success_commits_one_entry (env : Env) (shop : Shop)
    (items : List FoodItem) (tp : Balance)
    (hc : env.caller ≠ env.contract_account)
    (hne : items ≠ [])
    (htp : order_total_price items = some tp)
    (hsc : tp * 1000000000000 < U128_LIMIT)
    (hval : env.transferred_value = tp * 1000000000000)
    (hok : env.transfer_ok = true) :
    ∃ o : Order,
      take_order_and_payment env shop items =
        .ok o
          { orders := shop.orders ++ [(shop.orders.length, o)]
            orders_mapping :=
              Mapping.insert shop.orders_mapping shop.orders.length o }
          (env.contract_account, tp) ∧
      o.paid = true ∧ o.order_id = shop.orders.length := by
  refine ⟨committed_order env items tp shop.orders.length, ?_, rfl, rfl⟩
  rw [take_order_success_eq env shop items tp hc hne htp hsc hval hok]
  rfl

theorem claim_success_commits_one_entry_witness :
    ∃ o : Order,
      take_order_and_payment ex_env Shop.new ex_items =
        .ok o
          { orders := Shop.new.orders ++ [(Shop.new.orders.length, o)]
            orders_mapping :=
              Mapping.insert Shop.new.orders_mapping Shop.new.orders.length o }
          (ex_env.contract_account, 34) ∧
      o.paid = true ∧ o.order_id = Shop.new.orders.length :=
  claim_success_commits_one_entry ex_env Shop.new ex_items 34
    (by decide) (by decide) (by decide) (by decide) (by decide) (by decide)

/-- C2 (counterexample): a mismatched payment (33 × 10^12 against a total of
34) does not produce an explicit error result value at all — no
`PaymentMismatch` variant even exists in `BurgerShopError` — it panics
(`trap`) out of the call. -/
theorem claim_payment_mismatch_counterexample :
    take_order_and_payment ⟨1, 0, 33000000000000, true⟩ Shop.new ex_items =
      .trap (.paymentMismatch 34) ∧
    (take_order_and_payment ⟨1, 0, 33000000000000, true⟩ Shop.new
      ex_items).isErrResult = false :=
  ⟨by decide, by decide⟩

/-- C2 (amended): a payment differing from the scaled total in either
direction makes `take_order_and_payment` abort with the payment-mismatch
panic (the `assert!` with the "Please pay complete amount" message), which
reverts the call, so the ledger is unchanged. -/
theorem claim_payment_mismatch_traps (env : Env) (shop : Shop)
    (items : List FoodItem) (tp : Balance)
    (hc : env.caller ≠ env.contract_account)
    (hne : items ≠ [])
    (htp : order_total_price items = some tp)
    (hsc : tp * 1000000000000 < U128_LIMIT)
    (hval : env.transferred_value ≠ tp * 1000000000000) :
    take_order_and_payment env shop items = .trap (.paymentMismatch tp) ∧
    (applyOp shop (env, items)).1 = shop := by
  have h := take_order_mismatch_eq env shop items tp hc hne htp hsc hval
  exact ⟨h, by simp [applyOp, h]⟩

theorem claim_payment_mismatch_traps_witness :
    take_order_and_payment ⟨1, 0, 33000000000000, true⟩ Shop.new ex_items =
      .trap (.paymentMismatch 34) ∧
    (applyOp Shop.new (⟨1, 0, 33000000000000, true⟩, ex_items)).1 = Shop.new :=
  claim_payment_mismatch_traps ⟨1, 0, 33000000000000, true⟩ Shop.new ex_items
    34 (by decide) (by decide) (by decide) (by decide) (by decide)

/-- C3: when the external transfer fails, `take_order_and_payment` returns
the typed error `PaymentError` and the storage it hands back is the input
storage itself — both the append log and the lookup index are unchanged. -/
theorem claim_transfer_failure_no_mutation (env : Env) (shop : Shop)
    (items : List FoodItem) (tp : Balance)
    (hc : env.caller ≠ env.contract_account)
    (hne : items ≠ [])
    (htp : order_total_price items = some tp)
    (hsc : tp * 1000000000000 < U128_LIMIT)
    (hval : env.transferred_value = tp * 1000000000000)
    (hfail : env.transfer_ok = false) :
    take_order_and_payment env shop items =
      .err .PaymentError shop (env.contract_account, tp) ∧
    (applyOp shop (env, items)).1.orders = shop.orders ∧
    (applyOp shop (env, items)).1.orders_mapping = shop.orders_mapping := by
  have h := take_order_failure_eq env shop items tp hc hne htp hsc hval hfail
  refine ⟨h, ?_, ?_⟩ <;> simp [applyOp, h]

theorem claim_transfer_failure_no_mutation_witness :
    take_order_and_payment ⟨1, 0, 34000000000000, false⟩ Shop.new ex_items =
      .err .PaymentError Shop.new (0, 34) ∧
    (applyOp Shop.new (⟨1, 0, 34000000000000, false⟩, ex_items)).1.orders
      = Shop.new.orders ∧
    (applyOp Shop.new
        (⟨1, 0, 34000000000000, false⟩, ex_items)).1.orders_mapping
      = Shop.new.orders_mapping :=
  claim_transfer_failure_no_mutation ⟨1, 0, 34000000000000, false⟩ Shop.new
    ex_items 34 (by decide) (by decide) (by decide) (by decide) (by decide)
    (by decide)

/-- C4: a line price is `unit_price * quantity` computed with an overflow
check (it fails with `none` instead of wrapping when the product leaves the
u128 range), and the order total folds line prices with a running checked
sum, failing with `none` exactly when the mathematical total leaves the
range (equivalently, when some partial sum does, the summands being
non-negative). -/
theorem claim_overflow_checked_arithmetic :
    (∀ fi : FoodItem,
       fi.price =
         if fi.burger_menu.price * fi.amount < U128_LIMIT then
           some (fi.burger_menu.price * fi.amount)
         else none) ∧
    (∀ items : List FoodItem,
       order_total_price items =
         if spec_order_total items < U128_LIMIT then
           some (spec_order_total items)
         else none) := by
  constructor
  · intro fi
    rw [FoodItem.price_eq, checked_mul]
  · intro items
    exact order_total_price_eq items

/-- C5 (counterexample): an empty item list does not produce an explicit
`InvalidRequest` error result value — no such variant exists in
`BurgerShopError` — the call panics (`trap`) on the `assert!`. -/
theorem claim_invalid_request_counterexample :
    take_order_and_payment ⟨1, 0, 0, true⟩ Shop.new [] = .trap .emptyOrder ∧
    (take_order_and_payment ⟨1, 0, 0, true⟩ Shop.new []).isErrResult
      = false :=
  ⟨by decide, by decide⟩

/-- C5 (amended): a self-dealing caller or an empty item list makes
`take_order_and_payment` abort with the corresponding `assert!` panic, which
reverts the call, so the ledger is never mutated. -/
theorem claim_invalid_request_traps (env : Env) (shop : Shop)
    (items : List FoodItem)
    (h : env.caller = env.contract_account ∨ items = []) :
    (take_order_and_payment env shop items = .trap .notCustomer ∨
     take_order_and_payment env shop items = .trap .emptyOrder) ∧
    (applyOp shop (env, items)).1 = shop := by
  by_cases hc : env.caller = env.contract_account
  · have ht : take_order_and_payment env shop items = .trap .notCustomer := by
      simp [take_order_and_payment, hc]
    exact ⟨Or.inl ht, by simp [applyOp, ht]⟩
  · have hi : items = [] := h.resolve_left hc
    have ht : take_order_and_payment env shop items = .trap .emptyOrder := by
      simp [take_order_and_payment, hc, hi]
    exact ⟨Or.inr ht, by simp [applyOp, ht]⟩

theorem claim_invalid_request_traps_witness :
    (take_order_and_payment ⟨1, 0, 0, true⟩ Shop.new [] = .trap .notCustomer ∨
     take_order_and_payment ⟨1, 0, 0, true⟩ Shop.new [] = .trap .emptyOrder) ∧
    (applyOp Shop.new (⟨1, 0, 0, true⟩, [])).1 = Shop.new :=
  claim_invalid_request_traps ⟨1, 0, 0, true⟩ Shop.new [] (Or.inr rfl)

/-- C6: in every state reachable from the empty shop by any call sequence,
an id–order pair is in the append log exactly when the lookup index maps
that id to that same order snapshot, and the stored ids are exactly
0, 1, 2, … (the count at each insertion), hence unique. -/
theorem claim_ledger_views_synchronized (ops : List (Env × List FoodItem)) :
    (∀ (id : Nat) (o : Order),
       ((id, o) ∈ (run ops).orders ↔
         Mapping.get (run ops).orders_mapping id = some o)) ∧
    (run ops).orders.map Prod.fst = List.range (run ops).orders.length :=
  ⟨fun id o => goodState_mem_iff_get (run_good ops) id o, (run_good ops).1⟩

/-- C7: the unit prices are CheeseBurger 12, VeggieBurger 10,
ChickenBurger 15; for every non-empty in-range item list the order total is
the sum of `unit_price * quantity`; the 2-CheeseBurger + 1-VeggieBurger
example totals 34, paying exactly 34 × 10^12 succeeds, and paying 33 × 10^12
or 35 × 10^12 is rejected. -/
theorem claim_menu_prices_and_example :
    (BurgerMenu.price .CheeseBurger = 12 ∧
     BurgerMenu.price .VeggieBurger = 10 ∧
     BurgerMenu.price .ChickenBurger = 15) ∧
    (∀ items : List FoodItem, items ≠ [] →
       spec_order_total items < U128_LIMIT →
       order_total_price items = some (spec_order_total items)) ∧
    order_total_price ex_items = some 34 ∧
    (∃ (o : Order) (s : Shop) (c : AccountId × Balance),
       take_order_and_payment ⟨1, 0, 34000000000000, true⟩ Shop.new ex_items
         = .ok o s c) ∧
    take_order_and_payment ⟨1, 0, 33000000000000, true⟩ Shop.new ex_items
      = .trap (.paymentMismatch 34) ∧
    take_order_and_payment ⟨1, 0, 35000000000000, true⟩ Shop.new ex_items
      = .trap (.paymentMismatch 34) := by
  refine ⟨⟨rfl, rfl, rfl⟩, ?_, by decide,
    ⟨ex_order, ex_shop1, (0, 34), by decide⟩, by decide, by decide⟩
  intro items hne hlt
  rw [order_total_price_eq items, if_pos hlt]

theorem claim_menu_prices_and_example_witness :
    ex_items ≠ ([] : List FoodItem) ∧
    spec_order_total ex_items < U128_LIMIT ∧
    order_total_price ex_items = some (spec_order_total ex_items) :=
  ⟨by decide, by decide,
    claim_menu_prices_and_example.2.1 ex_items (by decide) (by decide)⟩

/-- C8: an order committed by a successful call is returned unchanged by
`get_single_order` at its id (also after any further calls, since committed
entries persist); a lookup of an id absent from the ledger fails with the
"Order not found" panic. -/
theorem claim_get_single_order_correct :
    (∀ (ops : List (Env × List FoodItem)) (id : Nat) (o : Order),
       (id, o) ∈ (run ops).orders → get_single_order (run ops) id = .ok o) ∧
    (∀ (ops : List (Env × List FoodItem)) (id : Nat),
       id ∉ (run ops).orders.map Prod.fst →
       get_single_order (run ops) id = .error .orderNotFound) ∧
    (∀ (env : Env) (ops : List (Env × List FoodItem))
       (items : List FoodItem) (o : Order) (s' : Shop)
       (c : AccountId × Balance),
       take_order_and_payment env (run ops) items = .ok o s' c →
       get_single_order s' o.order_id = .ok o) ∧
    (∀ (ops more : List (Env × List FoodItem)) (id : Nat) (o : Order),
       (id, o) ∈ (run ops).orders → (id, o) ∈ (run (ops ++ more)).orders) := by
  refine ⟨?_, ?_, ?_, ?_⟩
  · intro ops id o hm
    have hget := (goodState_mem_iff_get (run_good ops) id o).mp hm
    rw [get_single_order, hget]
  · intro ops id hid
    have hnone : Mapping.get (run ops).orders_mapping id = none := by
      apply mapping_get_none
      rw [(run_good ops).2, List.map_reverse, List.mem_reverse]
      exact hid
    rw [get_single_order, hnone]
  · intro env ops items o s' c h
    obtain ⟨-, hid, hs, -, -⟩ := take_order_ok_shape h
    subst hs
    rw [get_single_order, hid]
    have hq : Mapping.get (committed_shop (run ops) o).orders_mapping
        (run ops).orders.length = some o := by
      simp [committed_shop, Mapping.insert, mapping_get_cons]
    rw [hq]
  · intro ops more id o hm
    have hs := runFrom_state_append ops more Shop.new
    obtain ⟨t, ht⟩ := runFrom_extends more (run ops)
    show (id, o) ∈ (run (ops ++ more)).orders
    rw [run, hs]
    show (id, o) ∈ (runFrom (run ops) more).1.orders
    rw [ht]
    exact List.mem_append_left _ hm

theorem claim_get_single_order_correct_witness :
    (0, ex_order) ∈ (run ex_ops).orders ∧
    get_single_order (run ex_ops) 0 = .ok ex_order :=
  ⟨by decide, claim_get_single_order_correct.1 ex_ops 0 ex_order (by decide)⟩

/-- C9: `get_orders` on the empty ledger returns `none` (an absent result,
not an error); after any call sequence whose successful commits are the list
`runLog ops`, it returns exactly those orders, in creation order, one entry
per commit. -/
theorem claim_get_orders_correct :
    get_orders Shop.new = none ∧
    (∀ ops : List (Env × List FoodItem),
       runLog ops = [] → get_orders (run ops) = none) ∧
    (∀ ops : List (Env × List FoodItem), runLog ops ≠ [] →
       get_orders (run ops) = some (run ops).orders ∧
       (run ops).orders.map Prod.snd = runLog ops ∧
       (run ops).orders.length = (runLog ops).length) := by
  have hmap : ∀ ops : List (Env × List FoodItem),
      (run ops).orders.map Prod.snd = runLog ops := by
    intro ops
    have h := runFrom_map_snd ops Shop.new
    simpa [Shop.new, run, runLog] using h
  refine ⟨rfl, ?_, ?_⟩
  · intro ops hlog
    have h0 : (run ops).orders.map Prod.snd = [] := by rw [hmap ops, hlog]
    have hnil : (run ops).orders = [] := List.map_eq_nil_iff.mp h0
    simp [get_orders, hnil]
  · intro ops hlog
    have hone : (run ops).orders ≠ [] := by
      intro h0
      apply hlog
      rw [← hmap ops, h0]
      rfl
    refine ⟨?_, hmap ops, by rw [← hmap ops, List.length_map]⟩
    rw [get_orders, if_pos (by simpa [List.length_pos] using hone)]

theorem claim_get_orders_correct_witness :
    get_orders (run ex_ops) = some (run ex_ops).orders ∧
    (run ex_ops).orders.map Prod.snd = runLog ex_ops ∧
    (run ex_ops).orders.length = (runLog ex_ops).length :=
  claim_get_orders_correct.2.2 ex_ops (by decide)

/-- C10: whenever `take_order_and_payment` succeeds, the single external
transfer it performed was directed to the contract's own account and moved
`total_price` in contract price units — the unscaled amount, whose 10^12
multiple is what the caller attached. -/
theorem claim_transfer_to_contract (env : Env) (shop : Shop)
    (items : List FoodItem) (o : Order) (s' : Shop)
    (c : AccountId × Balance)
    (h : take_order_and_payment env shop items = .ok o s' c) :
    c = (env.contract_account, o.total_price) ∧
    c.2 * 1000000000000 = env.transferred_value := by
  obtain ⟨-, -, -, hcall, hv⟩ := take_order_ok_shape h
  subst hcall
  exact ⟨rfl, hv.symm⟩

theorem claim_transfer_to_contract_witness :
    ((0 : AccountId), (34 : Balance))
        = (ex_env.contract_account, ex_order.total_price) ∧
    ((0 : AccountId), (34 : Balance)).2 * 1000000000000
        = ex_env.transferred_value :=
  claim_transfer_to_contract ex_env Shop.new ex_items ex_order ex_shop1
    (0, 34) (by decide)

end BurgerShop
